import Mathlib

/-!
Verification of the data-quality / loader scripts of this repository
(`scripts/data_quality_check.py`, `scripts/load_data.py`) against their
natural-language specification.

The scripts are glue code around a cloud warehouse: each check function
issues one query, derives a boolean verdict from a numeric threshold, and
the report aggregator rolls the verdicts into a scored report.  The
embedding makes every interaction with the external warehouse explicit
data:

* `QueryOutcome α` is the outcome of one warehouse query as the Python
  code observes it — either the returned row(s) (`ok`) or a raised
  exception (`err msg`), which every check function catches with its
  `except Exception` clause.
* `EvalOutcome` is what the aggregator `generate_quality_report` observes
  when it calls one registered check function: a returned truthiness
  value (`ret b`) or an exception escaping the function (`raises msg`).
* File writes and process exit are likewise explicit (`Option String`
  for a write failure, `Except` for a propagated exception).

All numeric data flowing through the checks (record counts, hour
deltas, percentages) is embedded as `ℕ` / `ℚ`; the Python floats carry
exact small rationals here (counts and their quotients), except for the
one square root in the consistency check, which is handled by an
algebraically equivalent rational comparison (see
`DQ.check_data_consistency`).
-/

namespace DQ

/-- Outcome of a single warehouse query as observed inside a check
function's `try` block: the fetched data, or the message of a raised
exception. -/
inductive QueryOutcome (α : Type) where
  | ok (a : α)
  | err (msg : String)
deriving DecidableEq, Repr

/-- Status recorded for one check in `report['checks']`
(`data_quality_check.py`, lines 226–235). -/
inductive Status where
  | passed
  | failed
  | error
deriving DecidableEq, Repr

/-- One entry of `report['checks']`: the check's name, its status and,
for status `error`, the stringified exception. -/
structure CheckResult where
  name : String
  status : Status
  errMsg : Option String
deriving DecidableEq, Repr

/-- What the aggregator observes when invoking one registered check
function: the function returns a truthiness value, or lets an exception
escape. -/
inductive EvalOutcome where
  | ret (b : Bool)
  | raises (msg : String)
deriving DecidableEq, Repr

/-- The body of the aggregator's `for check_name, check_function in
checks` loop (`data_quality_check.py`, lines 223–235): a returned truthy
value records `passed`, a falsy one records `failed`, and a raised
exception is caught and records `error` with the message. -/
def runCheck : String × EvalOutcome → CheckResult
  | (n, .ret true) => ⟨n, .passed, none⟩
  | (n, .ret false) => ⟨n, .failed, none⟩
  | (n, .raises m) => ⟨n, .error, some m⟩

/-- The aggregator's evaluation loop over the registered check list, in
registration order. -/
def runChecks (cs : List (String × EvalOutcome)) : List CheckResult :=
  cs.map runCheck

/-- The in-memory report built by `generate_quality_report`
(`data_quality_check.py`, lines 208–248).  `report['checks']` is a
Python dict keyed by check name; dicts preserve insertion order and the
four registered names are pairwise distinct, so an ordered list of
`CheckResult` is its faithful image. -/
structure Report where
  checks : List CheckResult
  overall_score : ℚ
  total_checks : ℕ
  passed_checks : ℕ
  failed_checks : ℕ
deriving DecidableEq, Repr

/-- `passed_checks = sum(1 for check in report['checks'].values() if
check['status'] == 'passed')` (line 238). -/
def passedCount (rs : List CheckResult) : ℕ :=
  (rs.filter (fun r => r.status == Status.passed)).length

/-- Pure part of `generate_quality_report` (`data_quality_check.py`,
lines 204–248): run every registered check, record per-check statuses,
and compute `quality_score = (passed_checks / total_checks) * 100`
together with the summary block. -/
def generate_quality_report (cs : List (String × EvalOutcome)) : Report :=
  let rs := runChecks cs
  let passed := passedCount rs
  let total := rs.length
  { checks := rs
    overall_score := ((passed : ℚ) / total) * 100
    total_checks := total
    passed_checks := passed
    failed_checks := total - passed }

/-- `generate_quality_report` including its file write (lines 250–257):
the report JSON is written with no surrounding `try`, so a write failure
(`writeFailure = some e`) propagates the exception to the caller and the
function never reaches its `return report`; on write success the
in-memory report is returned. -/
def generate_quality_report_run (cs : List (String × EvalOutcome))
    (writeFailure : Option String) : Except String Report :=
  match writeFailure with
  | some e => Except.error e
  | none => Except.ok (generate_quality_report cs)

/-- The fixed registered check list of `generate_quality_report`
(lines 216–221), with each check's observed evaluation outcome left
abstract. -/
def registeredChecks (o1 o2 o3 o4 : EvalOutcome) : List (String × EvalOutcome) :=
  [("data_freshness", o1), ("data_completeness", o2),
   ("data_consistency", o3), ("dbt_models", o4)]

/-- `(runCheck p).name` is the registered name, whatever the outcome. -/
lemma runCheck_name (p : String × EvalOutcome) : (runCheck p).name = p.1 := by
  obtain ⟨n, o⟩ := p
  cases o with
  | ret b => cases b <;> rfl
  | raises m => rfl

/-- Claim C1: for every run of the report aggregator over the registered
check list of length 4 (data_freshness, data_completeness,
data_consistency, dbt_models, in that order), the report contains
exactly 4 per-check results, emitted in registration order, and
`overall_score = 100 * passed_count / 4` where `passed_count` counts the
results with status `passed`. -/
theorem report_shape_and_score (o1 o2 o3 o4 : EvalOutcome) :
    (generate_quality_report (registeredChecks o1 o2 o3 o4)).checks.length = 4 ∧
    (generate_quality_report (registeredChecks o1 o2 o3 o4)).checks.map CheckResult.name
      = ["data_freshness", "data_completeness", "data_consistency", "dbt_models"] ∧
    (generate_quality_report (registeredChecks o1 o2 o3 o4)).overall_score
      = 100 * (passedCount (generate_quality_report (registeredChecks o1 o2 o3 o4)).checks : ℚ) / 4 := by
  refine ⟨?_, ?_, ?_⟩
  · simp [generate_quality_report, runChecks, registeredChecks]
  · simp [generate_quality_report, runChecks, registeredChecks, runCheck_name]
  · show ((passedCount (runChecks (registeredChecks o1 o2 o3 o4)) : ℚ) /
        (runChecks (registeredChecks o1 o2 o3 o4)).length) * 100 = _
    have hlen : (runChecks (registeredChecks o1 o2 o3 o4)).length = 4 := by
      simp [runChecks, registeredChecks]
    rw [hlen]
    show _ = 100 * (passedCount (runChecks (registeredChecks o1 o2 o3 o4)) : ℚ) / 4
    ring

/-- Claim C2: an exception raised while evaluating one registered check
is caught by the aggregator (recorded as an `error` result) and the
remaining checks are still evaluated and recorded, in order. -/
theorem report_fault_isolation (pre post : List (String × EvalOutcome)) (n m : String) :
    (generate_quality_report (pre ++ (n, EvalOutcome.raises m) :: post)).checks
      = runChecks pre ++ (⟨n, Status.error, some m⟩ : CheckResult) :: runChecks post := by
  simp [generate_quality_report, runChecks, runCheck]

/-- `check_data_freshness` (`data_quality_check.py`, lines 34–69): the
freshness query returns one aggregate row whose `hours_since_update`
column may be SQL NULL (embedded `Option ℚ`).  A raised exception is
caught by the `except` clause and the function returns `False`; a NULL
`hours_since` makes the `:.1f` formatting / comparison raise inside the
`try`, which the same clause turns into `False`; otherwise the verdict
is `hours_since < 24`. -/
def check_data_freshness (q : QueryOutcome (Option ℚ)) : Bool :=
  match q with
  | .err _ => false
  | .ok none => false
  | .ok (some h) => decide (h < 24)

/-- The single aggregate row of the completeness query
(`data_quality_check.py`, lines 75–82). -/
structure CompletenessRow where
  total_records : ℕ
  valid_timestamps : ℕ
  valid_filenames : ℕ
  valid_loadtimes : ℕ
deriving DecidableEq, Repr

/-- `check_data_completeness` (`data_quality_check.py`, lines 71–114):
per-field completeness percentages are `valid / total * 100`; the
verdict (line 105) requires the timestamp and filename percentages to
strictly exceed 95 (`valid_loadtimes` is computed but not part of the
condition).  `total = 0` makes the division raise `ZeroDivisionError`,
caught by the `except` clause and turned into `False`, as is any
exception from the query itself. -/
def check_data_completeness (q : QueryOutcome CompletenessRow) : Bool :=
  match q with
  | .err _ => false
  | .ok r =>
    if r.total_records = 0 then false
    else
      decide ((r.valid_timestamps : ℚ) / r.total_records * 100 > 95 ∧
        (r.valid_filenames : ℚ) / r.total_records * 100 > 95)

/-- The `daily_records` column (int64 counts) viewed as exact
rationals, as pandas' float statistics view it. -/
def natsToQ (xs : List ℕ) : List ℚ := xs.map (fun n : ℕ => (n : ℚ))

/-- `df['daily_records'].mean()`: arithmetic mean of the daily-count
series as an exact rational. -/
def meanQ (xs : List ℚ) : ℚ := xs.sum / xs.length

/-- Square of `df['daily_records'].std()`: the pandas sample variance
(denominator `n - 1`, pandas' default `ddof=1`) as an exact rational. -/
def sampleVarQ (xs : List ℚ) : ℚ :=
  ((xs.map (fun x => (x - meanQ xs) ^ 2)).sum) / ((xs.length : ℚ) - 1)

/-- `check_data_consistency` (`data_quality_check.py`, lines 116–161):
the query yields the daily record-count series of the 30 most recent
days (embedded as the list of `COUNT(*)` values, so a list of `ℕ`).  An
empty frame returns `False` (line 137–139).  A one-row frame makes
pandas' sample standard deviation `NaN`, and `NaN < 50` is `False`.
Otherwise the code passes iff `std / mean * 100 < 50`; over this
domain (`mean ≥ 0`, `std ≥ 0`) that float comparison is equivalent to
the exact rational comparison `10000 * var < 2500 * mean²` obtained by
squaring both non-negative sides (for `mean = 0` both are `False`:
the code's `0.0 / 0.0` is `NaN`), which avoids the irrational square
root; `consistency_cv_threshold` proves the equivalence against the
literal `sqrt`-based formula.  A raised exception is caught and returns
`False`. -/
def check_data_consistency (q : QueryOutcome (List ℕ)) : Bool :=
  match q with
  | .err _ => false
  | .ok xs =>
    if xs.length = 0 then false
    else if xs.length = 1 then false
    else
      decide (10000 * sampleVarQ (natsToQ xs) < 2500 * (meanQ (natsToQ xs)) ^ 2)

/-- Row count observed for one downstream dbt table
(`data_quality_check.py`, lines 175–192): a query failure for that
table is caught inside the loop and records `results[model] = 0`. -/
def tableCount (q : QueryOutcome ℕ) : ℕ :=
  match q with
  | .ok n => n
  | .err _ => 0

/-- `check_dbt_models` (`data_quality_check.py`, lines 163–202): passes
iff all three downstream tables (`stg_cdo_challenge`,
`int_daily_metrics`, `mart_business_insights`) report a strictly
positive row count, a per-table query failure counting as 0 rows. -/
def check_dbt_models (q1 q2 q3 : QueryOutcome ℕ) : Bool :=
  decide (0 < tableCount q1 ∧ 0 < tableCount q2 ∧ 0 < tableCount q3)

/-- A full run of `generate_quality_report` with the four built-in
checks wired to their warehouse-query outcomes.  Each built-in check
catches every exception of its own evaluation (its `try` covers the
query and all result processing) and returns a plain boolean, so the
aggregator observes `EvalOutcome.ret` for all four — encoded by
construction here. -/
def run_quality_checks (qf : QueryOutcome (Option ℚ)) (qc : QueryOutcome CompletenessRow)
    (qs : QueryOutcome (List ℕ)) (d1 d2 d3 : QueryOutcome ℕ) : Report :=
  generate_quality_report (registeredChecks
    (.ret (check_data_freshness qf))
    (.ret (check_data_completeness qc))
    (.ret (check_data_consistency qs))
    (.ret (check_dbt_models d1 d2 d3)))

/-- What `load_data_from_gcs` (`load_data.py`, lines 61–95) observes of
the load job: either some exception raised inside its `try` block
(during submission, polling, or the final `get_table` statistics), or a
job that reached a terminal state with the given error list (Python's
`load_job.errors`, where both `None` and `[]` are falsy — embedded as
the empty list). -/
inductive LoadOutcome where
  | raisesDuring (msg : String)
  | terminal (errorList : List String)
deriving DecidableEq, Repr

/-- `load_data_from_gcs` (`load_data.py`, lines 61–95): polls the job to
a terminal state; `if load_job.errors:` returns `False`, otherwise logs
statistics and returns `True`.  Any exception inside the `try` is
caught by the `except` clause (lines 93–95), logged, and turned into
`return False` — it is not re-raised. -/
def load_data_from_gcs (o : LoadOutcome) : Bool :=
  match o with
  | .raisesDuring _ => false
  | .terminal errs => if errs.isEmpty then true else false

/-- Observable outcome of the loader's `main` (`load_data.py`,
lines 132–155): whether the load step reported success and whether
`validate_data_quality` was invoked. -/
structure MainTrace where
  loadSuccess : Bool
  validationRan : Bool
deriving DecidableEq, Repr

/-- The loader's `main` (`load_data.py`, lines 132–155).  `initFailure`
models an exception raised by `create_bigquery_client` or
`create_dataset_and_table` (both re-raise, so `main`'s handler logs and
re-raises it — `Except.error`).  Otherwise `success =
load_data_from_gcs(...)`; if it is `True`, validation runs, else the
failure is only logged.  In both cases `main` returns normally. -/
def load_main (initFailure : Option String) (o : LoadOutcome) : Except String MainTrace :=
  match initFailure with
  | some e => Except.error e
  | none =>
    let s := load_data_from_gcs o
    if s then Except.ok ⟨true, true⟩ else Except.ok ⟨false, false⟩

/-- Process exit status of the loader script: the `if __name__` guard
just calls `main()`, so a propagated exception exits non-zero and a
normal return exits 0. -/
def exitCode : Except String MainTrace → ℕ
  | Except.ok _ => 0
  | Except.error _ => 1

/-- Claim C3 counterexample: a concrete run in which the freshness
query raises (`QueryOutcome.err`) while the other checks succeed.  The
recorded result for `data_freshness` has status `failed`, not `error`:
the exception is caught inside `check_data_freshness` itself (lines
67–69), which returns `False`, so the aggregator records `failed`. -/
theorem check_exception_status_counterexample :
    (run_quality_checks (QueryOutcome.err "connection reset")
        (QueryOutcome.ok ⟨100, 96, 96, 96⟩) (QueryOutcome.ok [10, 10])
        (QueryOutcome.ok 1) (QueryOutcome.ok 1) (QueryOutcome.ok 1)).checks.map
        (fun r => (r.name, r.status))
      = [("data_freshness", Status.failed), ("data_completeness", Status.passed),
         ("data_consistency", Status.passed), ("dbt_models", Status.passed)] := by
  have hf : check_data_freshness (QueryOutcome.err "connection reset") = false := rfl
  have hc : check_data_completeness (QueryOutcome.ok ⟨100, 96, 96, 96⟩) = true := by
    simp only [check_data_completeness]
    norm_num
  have hs : check_data_consistency (QueryOutcome.ok [10, 10]) = true := by
    simp only [check_data_consistency]
    norm_num [sampleVarQ, meanQ, natsToQ]
  have hd : check_dbt_models (QueryOutcome.ok 1) (QueryOutcome.ok 1) (QueryOutcome.ok 1) = true := by
    simp [check_dbt_models, tableCount]
  simp [run_quality_checks, registeredChecks, generate_quality_report, runChecks, runCheck,
    hf, hc, hs, hd]

/-- Claim C3 (amended): an exception during a built-in check's
warehouse query is caught inside the check function itself, which
returns `False`, so the aggregator records status `failed` for it; the
aggregator's `error` status is recorded only for an exception escaping
a check function, which the four built-in checks never let happen. -/
theorem check_exception_recorded_failed (m : String) (qc : QueryOutcome CompletenessRow)
    (qs : QueryOutcome (List ℕ)) (d1 d2 d3 : QueryOutcome ℕ) :
    check_data_freshness (QueryOutcome.err m) = false ∧
    check_data_completeness (QueryOutcome.err m) = false ∧
    check_data_consistency (QueryOutcome.err m) = false ∧
    ((run_quality_checks (QueryOutcome.err m) qc qs d1 d2 d3).checks.map
        (fun r => r.status)).head? = some Status.failed :=
  ⟨rfl, rfl, rfl, rfl⟩

/-- Claim C4 counterexample: with a failing write, `generate_quality_report`
does not return the in-memory report — the exception propagates and the
`return report` statement is never reached. -/
theorem report_write_failure_counterexample :
    generate_quality_report_run [("data_freshness", EvalOutcome.ret true)] (some "disk full")
      ≠ Except.ok (generate_quality_report [("data_freshness", EvalOutcome.ret true)]) := by
  simp [generate_quality_report_run]

/-- Claim C4 (amended): the report file write is not wrapped in any
`try`, so a write failure propagates to the caller as the raised I/O
error (never silently swallowed) and in that case no report is
returned; only on write success is the fully-assembled in-memory
report returned. -/
theorem report_write_failure_propagates (cs : List (String × EvalOutcome)) (e : String) :
    generate_quality_report_run cs none = Except.ok (generate_quality_report cs) ∧
    generate_quality_report_run cs (some e) = Except.error e :=
  ⟨rfl, rfl⟩

/-- Claim C5 counterexample: an exception during load submission or
polling is caught by `load_data_from_gcs` and converted to `False`;
`main` then only logs the failure and returns normally, so the process
exits 0 despite the unrecovered load failure. -/
theorem loader_exit_code_counterexample :
    load_data_from_gcs (LoadOutcome.raisesDuring "network error") = false ∧
    exitCode (load_main none (LoadOutcome.raisesDuring "network error")) = 0 :=
  ⟨rfl, rfl⟩

/-- Claim C5 (amended): only an exception in client or dataset/table
creation is re-raised and terminates the loader with a non-zero exit;
an exception during load submission or polling, or a job terminating
with errors, is logged, makes `load_data_from_gcs` return `False`, and
`main` still completes normally with exit code 0. -/
theorem loader_failure_exit_codes (o : LoadOutcome) (e : String) :
    load_main none o = Except.ok ⟨load_data_from_gcs o, load_data_from_gcs o⟩ ∧
    exitCode (load_main none o) = 0 ∧
    exitCode (load_main (some e) o) = 1 := by
  cases hs : load_data_from_gcs o <;> simp [load_main, hs, exitCode]

/-- The pandas sample variance of a series of length at least 2 is
non-negative (sum of squares over a positive denominator). -/
lemma sampleVarQ_nonneg (ys : List ℚ) (h : 2 ≤ ys.length) : 0 ≤ sampleVarQ ys := by
  unfold sampleVarQ
  apply div_nonneg
  · apply List.sum_nonneg
    intro x hx
    simp only [List.mem_map] at hx
    obtain ⟨y, -, rfl⟩ := hx
    positivity
  · have h' : (2 : ℚ) ≤ (ys.length : ℚ) := by exact_mod_cast h
    linarith

/-- The rational view of the series has the same length. -/
lemma natsToQ_length (xs : List ℕ) : (natsToQ xs).length = xs.length := by
  simp [natsToQ]

/-- The rational view of the series has the cast sum. -/
lemma natsToQ_sum (xs : List ℕ) : (natsToQ xs).sum = (xs.sum : ℚ) :=
  (Nat.cast_list_sum xs).symm

/-- A daily-count series with positive total has a positive mean. -/
lemma meanQ_pos (xs : List ℕ) (h2 : 2 ≤ xs.length) (hm : 0 < xs.sum) :
    0 < meanQ (natsToQ xs) := by
  unfold meanQ
  rw [natsToQ_sum, natsToQ_length]
  apply div_pos
  · exact_mod_cast hm
  · have : (2 : ℚ) ≤ (xs.length : ℚ) := by exact_mod_cast h2
    linarith

/-- Claim C6: on a daily record-count series of at least two days with a
positive total (every `COUNT(*)` group of the source query contributes
at least one record), the consistency check passes exactly when the
coefficient of variation `std / mean * 100` — with `std` the sample
standard deviation, i.e. the square root of `sampleVarQ` — is strictly
below 50, and on a window with zero rows it returns `false` (recorded
as `failed`, not `error`). -/
theorem consistency_cv_threshold (xs : List ℕ) (h2 : 2 ≤ xs.length) (hm : 0 < xs.sum) :
    (check_data_consistency (QueryOutcome.ok xs) = true ↔
      Real.sqrt ((sampleVarQ (natsToQ xs) : ℚ) : ℝ) /
        ((meanQ (natsToQ xs) : ℚ) : ℝ) * 100 < 50) ∧
    check_data_consistency (QueryOutcome.ok ([] : List ℕ)) = false := by
  refine ⟨?_, rfl⟩
  have hmean : 0 < meanQ (natsToQ xs) := meanQ_pos xs h2 hm
  have hvar : 0 ≤ sampleVarQ (natsToQ xs) :=
    sampleVarQ_nonneg _ (by simpa [natsToQ_length] using h2)
  have h0 : ¬(xs.length = 0) := by omega
  have h1 : ¬(xs.length = 1) := by omega
  simp only [check_data_consistency, if_neg h0, if_neg h1, decide_eq_true_eq]
  set v : ℚ := sampleVarQ (natsToQ xs) with hv
  set m : ℚ := meanQ (natsToQ xs) with hmdef
  have hm' : (0 : ℝ) < (m : ℝ) := by exact_mod_cast hmean
  have hv' : (0 : ℝ) ≤ (v : ℝ) := by exact_mod_cast hvar
  have hhalf : (0 : ℝ) < (m : ℝ) / 2 := by linarith
  constructor
  · intro hlt
    have hlt' : (10000 : ℝ) * (v : ℝ) < 2500 * (m : ℝ) ^ 2 := by exact_mod_cast hlt
    have hsq : Real.sqrt (v : ℝ) < (m : ℝ) / 2 := by
      rw [Real.sqrt_lt' hhalf]
      nlinarith
    rw [div_mul_eq_mul_div, div_lt_iff₀ hm']
    nlinarith [Real.sqrt_nonneg (v : ℝ)]
  · intro hlt
    rw [div_mul_eq_mul_div, div_lt_iff₀ hm'] at hlt
    have hsq : Real.sqrt (v : ℝ) < (m : ℝ) / 2 := by linarith
    have hvm : (v : ℝ) < ((m : ℝ) / 2) ^ 2 := (Real.sqrt_lt' hhalf).mp hsq
    have : (10000 : ℝ) * (v : ℝ) < 2500 * (m : ℝ) ^ 2 := by nlinarith
    exact_mod_cast this

/-- Witness for `consistency_cv_threshold` at the two-day series
`[10, 10]` (zero variance, mean 10). -/
theorem consistency_cv_threshold_witness :
    2 ≤ ([10, 10] : List ℕ).length ∧ 0 < ([10, 10] : List ℕ).sum ∧
    ((check_data_consistency (QueryOutcome.ok [10, 10]) = true ↔
      Real.sqrt ((sampleVarQ (natsToQ [10, 10]) : ℚ) : ℝ) /
        ((meanQ (natsToQ [10, 10]) : ℚ) : ℝ) * 100 < 50) ∧
    check_data_consistency (QueryOutcome.ok ([] : List ℕ)) = false) :=
  ⟨by decide, by decide, consistency_cv_threshold [10, 10] (by decide) (by decide)⟩

/-- Claim C7: for a completeness row with a positive total record
count, the check passes exactly when the non-null fractions of the two
required fields of the verdict condition (`_PARTITIONTIME` and
`_FILE_NAME`) each strictly exceed 95 / 100; in particular
`total = 100` with 96 non-null values per field passes, and 94 fails. -/
theorem completeness_threshold (total vt vf vl : ℕ) (h : 0 < total) :
    (check_data_completeness (QueryOutcome.ok ⟨total, vt, vf, vl⟩) = true ↔
      ((vt : ℚ) / (total : ℚ) > 95 / 100 ∧ (vf : ℚ) / (total : ℚ) > 95 / 100)) ∧
    check_data_completeness (QueryOutcome.ok ⟨100, 96, 96, 96⟩) = true ∧
    check_data_completeness (QueryOutcome.ok ⟨100, 94, 96, 96⟩) = false := by
  refine ⟨?_, ?_, ?_⟩
  · have hne : ¬(total = 0) := Nat.pos_iff_ne_zero.mp h
    simp only [check_data_completeness, if_neg hne, decide_eq_true_eq]
    constructor
    · rintro ⟨ha, hb⟩
      exact ⟨by linarith, by linarith⟩
    · rintro ⟨ha, hb⟩
      exact ⟨by linarith, by linarith⟩
  · simp only [check_data_completeness]
    norm_num
  · simp only [check_data_completeness]
    norm_num

/-- Witness for `completeness_threshold` at `total = 100`,
`valid = 96` per field. -/
theorem completeness_threshold_witness :
    0 < 100 ∧
    ((check_data_completeness (QueryOutcome.ok ⟨100, 96, 96, 96⟩) = true ↔
      (((96 : ℕ) : ℚ) / ((100 : ℕ) : ℚ) > 95 / 100 ∧
        ((96 : ℕ) : ℚ) / ((100 : ℕ) : ℚ) > 95 / 100)) ∧
    check_data_completeness (QueryOutcome.ok ⟨100, 96, 96, 96⟩) = true ∧
    check_data_completeness (QueryOutcome.ok ⟨100, 94, 96, 96⟩) = false) :=
  ⟨by decide, completeness_threshold 100 96 96 96 (by decide)⟩

/-- Claim C8: a load job terminating with a non-empty error list makes
the pipeline halt before validation with the success flag `false`; with
an empty error list the load step returns `true` and validation runs. -/
theorem loader_halts_on_job_errors (errs : List String) (h : errs ≠ []) :
    load_main none (LoadOutcome.terminal errs) = Except.ok ⟨false, false⟩ ∧
    load_main none (LoadOutcome.terminal []) = Except.ok ⟨true, true⟩ := by
  cases errs with
  | nil => exact absurd rfl h
  | cons a l => exact ⟨rfl, rfl⟩

/-- Witness for `loader_halts_on_job_errors` at the one-element error
list `["load error"]`. -/
theorem loader_halts_on_job_errors_witness :
    (["load error"] : List String) ≠ [] ∧
    (load_main none (LoadOutcome.terminal ["load error"]) = Except.ok ⟨false, false⟩ ∧
      load_main none (LoadOutcome.terminal []) = Except.ok ⟨true, true⟩) :=
  ⟨by simp, loader_halts_on_job_errors ["load error"] (by simp)⟩

/-- Claim C9: the dbt-models check passes exactly when all three named
downstream tables report a strictly positive row count; a query failure
for one table counts as zero rows for it, so it turns the whole check
`failed` (returns `False`) rather than raising. -/
theorem dbt_models_positive_counts (q1 q2 q3 : QueryOutcome ℕ) :
    (check_dbt_models q1 q2 q3 = true ↔
      (0 < tableCount q1 ∧ 0 < tableCount q2 ∧ 0 < tableCount q3)) ∧
    (∀ m : String, tableCount (QueryOutcome.err m) = 0) ∧
    (∀ m : String, check_dbt_models (QueryOutcome.err m) q2 q3 = false) := by
  refine ⟨by simp [check_dbt_models], fun m => rfl, fun m => ?_⟩
  simp [check_dbt_models, tableCount]

/-- Helper for C10: every recorded status of the four-check report is
distinct from `error`, whatever the four booleans returned. -/
lemma checks_all_not_error (b1 b2 b3 b4 : Bool) :
    ((generate_quality_report (registeredChecks (EvalOutcome.ret b1) (EvalOutcome.ret b2)
        (EvalOutcome.ret b3) (EvalOutcome.ret b4))).checks.all
      (fun r => r.status != Status.error)) = true := by
  cases b1 <;> cases b2 <;> cases b3 <;> cases b4 <;> rfl

/-- Helper for C10: the overall score of the four-check report is one
of 0, 25, 50, 75, 100, whatever the four booleans returned. -/
lemma overall_score_mem (b1 b2 b3 b4 : Bool) :
    (generate_quality_report (registeredChecks (EvalOutcome.ret b1) (EvalOutcome.ret b2)
        (EvalOutcome.ret b3) (EvalOutcome.ret b4))).overall_score
      ∈ ({0, 25, 50, 75, 100} : Set ℚ) := by
  have e1 : (Status.failed == Status.passed) = false := rfl
  have e2 : (Status.passed == Status.passed) = true := rfl
  simp only [Set.mem_insert_iff, Set.mem_singleton_iff]
  cases b1 <;> cases b2 <;> cases b3 <;> cases b4 <;>
    simp [generate_quality_report, registeredChecks, runChecks, runCheck, passedCount,
      List.filter, e1, e2] <;>
    norm_num

/-- Claim C10: in every full run with the four built-in checks, the
aggregator's `error` branch is unreachable — each check catches its own
exceptions and returns a boolean — so every recorded status is `passed`
or `failed` and the overall score lies in {0, 25, 50, 75, 100}. -/
theorem builtin_checks_never_error (qf : QueryOutcome (Option ℚ))
    (qc : QueryOutcome CompletenessRow) (qs : QueryOutcome (List ℕ))
    (d1 d2 d3 : QueryOutcome ℕ) :
    ((run_quality_checks qf qc qs d1 d2 d3).checks.all
      (fun r => r.status != Status.error)) = true ∧
    (run_quality_checks qf qc qs d1 d2 d3).overall_score ∈ ({0, 25, 50, 75, 100} : Set ℚ) :=
  ⟨checks_all_not_error _ _ _ _, overall_score_mem _ _ _ _⟩

end DQ
